import Mathlib

/-!
Verification of the recommendation pipeline of `src/app.py` (watch-picker).

The development shallowly embeds the core pipeline: `safe_float`,
`build_rec`, the `rec_pool` merge/dedup dictionary, the availability and
IMDb-minimum filters, and the final sort/truncate ranking.  Python floats
are modelled as rationals (`ℚ`), Python `dict`-based pools as functions
`Int → Option Rec`, and Python string falsiness (`x or ""`) explicitly.
The two external HTTP services (TMDB, OMDb) are modelled as an explicit
environment of response functions, so that `build_rec` and the filters
are pure functions of that environment.
-/

namespace WatchPicker

/-- Image base URL, `TMDB_IMG` in the source. -/
def TMDB_IMG : String := "https://image.tmdb.org/t/p/w342"

/-- Python string falsiness for `x or ""` applied to an optional string:
`None` and `""` both give `""`, anything else gives the string itself. -/
def py_or_str (x : Option String) : String :=
  match x with
  | none => ""
  | some s => if s = "" then "" else s

/-- Python float falsiness for `tmdb_vote or 0.0` applied to an optional
rational: `None` and `0.0` both give `0`, anything else the value itself. -/
def py_or_q (x : Option ℚ) : ℚ :=
  match x with
  | none => 0
  | some v => if v = 0 then 0 else v

/-- Python `s[:4]`: the first four characters of a string (fewer when the
string is shorter). -/
def py_take4 (s : String) : String :=
  String.mk (s.data.take 4)

/-- Python `s.isdigit()`, restricted to ASCII digits: true exactly when the
string is non-empty and every character is a decimal digit. -/
def py_isdigit (s : String) : Bool :=
  !s.data.isEmpty && s.data.all Char.isDigit

/-- Decimal value of a list of digit characters, as in Python `int(s)` on an
all-digit string. -/
def digits_val (l : List Char) : Int :=
  l.foldl (fun a c => 10 * a + ((c.toNat : Int) - 48)) 0

/-- Python `s.strip()`: remove leading and trailing whitespace. -/
def py_strip (s : String) : String :=
  String.mk (((s.data.dropWhile Char.isWhitespace).reverse.dropWhile Char.isWhitespace).reverse)

/-- Python `float(s)` on an already-stripped string, modelled for plain
decimal literals: optional sign, an integer part and an optional fractional
part.  Any other shape yields `none`, matching the `except` branch of
`safe_float` in the source returning `None`. -/
def parse_py_float (s : String) : Option ℚ :=
  let l := s.data
  let signed : ℚ × List Char :=
    match l with
    | '-' :: rest => (-1, rest)
    | '+' :: rest => (1, rest)
    | _ => (1, l)
  let sign := signed.1
  let l1 := signed.2
  let intPart := l1.takeWhile Char.isDigit
  let rest1 := l1.dropWhile Char.isDigit
  match rest1 with
  | [] =>
    if intPart.isEmpty then none
    else some (sign * (digits_val intPart : ℚ))
  | '.' :: rest2 =>
    let fracPart := rest2.takeWhile Char.isDigit
    let rest3 := rest2.dropWhile Char.isDigit
    if rest3.isEmpty && (!intPart.isEmpty || !fracPart.isEmpty) then
      some (sign * ((digits_val intPart : ℚ) +
        (digits_val fracPart : ℚ) / (10 ^ fracPart.length)))
    else none
  | _ => none

/-- `safe_float` from the source: strip, map `""` and the `"N/A"` sentinel to
absent, otherwise attempt a float parse, with parse failure also absent.
The input is optional because call sites pass `dict.get` results, which the
`x or ""` guard in the source turns into `""`. -/
def safe_float (x : Option String) : Option ℚ :=
  let t := py_strip (py_or_str x)
  if t = "" || t = "N/A" then none else parse_py_float t

/-- A raw TMDB movie record, the dictionary consumed by `build_rec`.  Each
field models `movie.get(...)`, hence every field is optional. -/
structure Movie where
  id : Option Int
  title : Option String
  release_date : Option String
  overview : Option String
  poster_path : Option String
  vote_average : Option ℚ
deriving DecidableEq, Repr

/-- The `Rec` dataclass of the source. -/
structure Rec where
  tmdb_id : Int
  title : String
  year : Option Int
  overview : String
  poster_url : Option String
  tmdb_vote : Option ℚ
  imdb_rating : Option ℚ
  score : ℚ
deriving DecidableEq, Repr

/-- One entry of a TMDB `flatrate` provider list. -/
structure ProviderEntry where
  provider_id : Option Int
deriving DecidableEq, Repr

/-- The per-region part of a TMDB watch-providers response
(`results[region]` in the source). -/
structure RegionData where
  flatrate : Option (List ProviderEntry)

/-- A TMDB watch-providers response: `results` maps a region code to its
regional data, `none` standing for an absent key. -/
structure WatchData where
  results : String → Option RegionData

/-- The external-service environment of the pipeline: the OMDb credential
(`""` means unconfigured, matching Python falsiness of the env var), the
`imdb_id` field of `tmdb_movie_external_ids`, the `imdbRating` field of
`omdb_lookup` (with `none` covering both a missing field and any failed
lookup, which the source returns as the empty dict), and
`tmdb_movie_watch_providers`. -/
structure Env where
  omdb_api_key : String
  external_ids : Int → Option String
  omdb_imdb_rating : String → Option String
  watch_providers : Int → WatchData

/-- The year computation of `build_rec`:
`int(release_date[:4]) if release_date[:4].isdigit() else None`. -/
def parse_year (release_date : String) : Option Int :=
  if py_isdigit (py_take4 release_date) then
    some (digits_val (py_take4 release_date).data)
  else none

/-- The poster-URL computation of `build_rec`:
an f-string concatenation when `poster_path` is truthy, else `None`. -/
def poster_url_of (poster_path : Option String) : Option String :=
  match poster_path with
  | none => none
  | some p => if p = "" then none else some (TMDB_IMG ++ p)

/-- The opportunistic IMDb-rating resolution of `build_rec`: only attempted
when the OMDb credential is configured, skipped when the external-ids
response has a falsy `imdb_id`, and parsed with `safe_float`. -/
def imdb_rating_of (env : Env) (tmdb_id : Int) : Option ℚ :=
  if env.omdb_api_key = "" then none
  else
    match env.external_ids tmdb_id with
    | none => none
    | some iid =>
      if iid = "" then none
      else safe_float (env.omdb_imdb_rating iid)

/-- `build_rec` from the source: reject records with a falsy id or title,
otherwise build a `Rec` with
`score = float(tmdb_vote or 0.0) + like_bonus + (0.25 when an IMDb rating
was resolved)`. -/
def build_rec (env : Env) (movie : Movie) (like_bonus : ℚ) : Option Rec :=
  match movie.id with
  | none => none
  | some tid =>
    if tid = 0 ∨ py_or_str movie.title = "" then none
    else
      let ir := imdb_rating_of env tid
      some
        { tmdb_id := tid
          title := py_or_str movie.title
          year := parse_year (py_or_str movie.release_date)
          overview := py_or_str movie.overview
          poster_url := poster_url_of movie.poster_path
          tmdb_vote := movie.vote_average
          imdb_rating := ir
          score := py_or_q movie.vote_average + like_bonus +
            (if ir.isSome then (1 / 4 : ℚ) else 0) }

/-- The `rec_pool` dictionary: a map from TMDB id to the stored candidate. -/
abbrev Pool := Int → Option Rec

/-- The initial empty pool (`rec_pool = {}`). -/
def pool_empty : Pool := fun _ => none

/-- The merge rule applied at one pool slot:
`if r.tmdb_id not in rec_pool or r.score > rec_pool[r.tmdb_id].score`. -/
def merge_slot (old : Option Rec) (r : Rec) : Option Rec :=
  match old with
  | none => some r
  | some o => if o.score < r.score then some r else some o

/-- One insertion into the pool, the body of both insertion loops. -/
def pool_insert (p : Pool) (r : Rec) : Pool :=
  fun i => if i = r.tmdb_id then merge_slot (p r.tmdb_id) r else p i

/-- Inserting a whole list of candidates in order. -/
def pool_insert_all (p : Pool) (l : List Rec) : Pool :=
  l.foldl pool_insert p

/-- The pool built by the source's two insertion loops: recommendations
seeded by liked titles enter with `like_bonus = 1.25`, then broad discovery
records enter with `like_bonus = 0`.  Records rejected by `build_rec` are
skipped (`if not r: continue`). -/
def rec_pool_final (env : Env) (like_recs discover_recs : List Movie) : Pool :=
  pool_insert_all
    (pool_insert_all pool_empty
      (like_recs.filterMap (fun m => build_rec env m (5 / 4))))
    (discover_recs.filterMap (fun m => build_rec env m 0))

/-- `extract_provider_ids_for_region` from the source: the set of non-null
provider ids of the region's `flatrate` list, with every missing level
defaulted to empty. -/
def extract_provider_ids_for_region (watch : WatchData) (region : String) : Finset Int :=
  let flat :=
    match watch.results region with
    | none => []
    | some rd => rd.flatrate.getD []
  (flat.filterMap ProviderEntry.provider_id).toFinset

/-- `movie_available_on_selected_services` from the source: an empty
selection passes unconditionally; otherwise the regional flatrate providers
must intersect the selection. -/
def movie_available_on_selected_services (env : Env) (movie_id : Int)
    (region : String) (selected_provider_ids : Finset Int) : Bool :=
  if selected_provider_ids = ∅ then true
  else
    decide (0 < ((extract_provider_ids_for_region (env.watch_providers movie_id) region) ∩
      selected_provider_ids).card)

/-- The IMDb-minimum rejection test of the filter loop:
`if OMDB_API_KEY and r.imdb_rating is not None and r.imdb_rating < imdb_min`. -/
def rating_reject (env : Env) (imdb_min : ℚ) (r : Rec) : Bool :=
  decide (env.omdb_api_key ≠ "") &&
    match r.imdb_rating with
    | none => false
    | some v => decide (v < imdb_min)

/-- A candidate survives the filter loop exactly when it is available on the
selected services and not rejected by the IMDb-minimum test. -/
def passes_filters (env : Env) (region : String) (selected : Finset Int)
    (imdb_min : ℚ) (r : Rec) : Bool :=
  movie_available_on_selected_services env r.tmdb_id region selected &&
    !(rating_reject env imdb_min r)

/-- The filter loop over the pool's values. -/
def filter_recs (env : Env) (region : String) (selected : Finset Int)
    (imdb_min : ℚ) (l : List Rec) : List Rec :=
  l.filter (passes_filters env region selected imdb_min)

/-- The sort order of `filtered.sort(key=lambda x: x.score, reverse=True)`:
descending by score. -/
def score_ge (a b : Rec) : Prop := b.score ≤ a.score

instance : DecidableRel score_ge :=
  fun a b => inferInstanceAs (Decidable (b.score ≤ a.score))

instance : IsTotal Rec score_ge :=
  ⟨fun a b => le_total b.score a.score⟩

instance : IsTrans Rec score_ge :=
  ⟨fun _ _ _ hab hbc => le_trans hbc hab⟩

/-- The source's stable descending sort of the filtered list, modelled by
(stable) insertion sort. -/
def sort_recs (l : List Rec) : List Rec :=
  List.insertionSort score_ge l

/-- The ranker: sort descending by score and keep the first `n`
(`top = filtered[:n_results]`). -/
def rank (n : Nat) (l : List Rec) : List Rec :=
  (sort_recs l).take n

/-!
Concrete instances used by counterexamples and witnesses.
-/

/-- An environment with no OMDb credential and empty upstream data. -/
def env0 : Env :=
  { omdb_api_key := ""
    external_ids := fun _ => none
    omdb_imdb_rating := fun _ => none
    watch_providers := fun _ => { results := fun _ => none } }

/-- An environment with an OMDb credential configured (responses empty). -/
def envK : Env :=
  { omdb_api_key := "k"
    external_ids := fun _ => none
    omdb_imdb_rating := fun _ => none
    watch_providers := fun _ => { results := fun _ => none } }

/-- The `Heat` scenario record of the spec, section 8. -/
def heatMovie : Movie :=
  { id := some 1
    title := some ("Heat")
    release_date := some ("1995-12-15")
    overview := none
    poster_path := some ("/x.jpg")
    vote_average := some (39 / 5) }

/-- The candidate `build_rec` produces from `heatMovie` under `env0` with
like bonus `1.25`; its score is `7.8 + 1.25 = 9.05`. -/
def heatRec : Rec :=
  { tmdb_id := 1
    title := "Heat"
    year := some 1995
    overview := ""
    poster_url := some ("https://image.tmdb.org/t/p/w342/x.jpg")
    tmdb_vote := some (39 / 5)
    imdb_rating := none
    score := 181 / 20 }

/-- A raw record whose release date is the three-digit string `"123"`. -/
def movie123 : Movie :=
  { id := some 7
    title := some ("Widget")
    release_date := some ("123")
    overview := none
    poster_path := none
    vote_average := some 5 }

/-- The candidate built from `movie123`: its year is `123`, not absent. -/
def rec123 : Rec :=
  { tmdb_id := 7
    title := "Widget"
    year := some 123
    overview := ""
    poster_url := none
    tmdb_vote := some 5
    imdb_rating := none
    score := 5 }

/-- A raw record with integer id `0` and a perfectly good title. -/
def movieZero : Movie :=
  { id := some 0
    title := some ("Zed")
    release_date := none
    overview := none
    poster_path := none
    vote_average := some 6 }

/-- Two raw records with the same id and the same resulting score but
different titles: the order-dependence counterexample for the pool. -/
def movieAlpha : Movie :=
  { id := some 11
    title := some ("Alpha")
    release_date := none
    overview := none
    poster_path := none
    vote_average := some 5 }

/-- Same id and score as `movieAlpha`, different title. -/
def movieBeta : Movie :=
  { id := some 11
    title := some ("Beta")
    release_date := none
    overview := none
    poster_path := none
    vote_average := some 5 }

/-- A candidate with id `42` and score `6.0`. -/
def rec42a : Rec :=
  { tmdb_id := 42
    title := "A"
    year := none
    overview := ""
    poster_url := none
    tmdb_vote := some 6
    imdb_rating := none
    score := 6 }

/-- A candidate with id `42` and score `7.5`. -/
def rec42b : Rec :=
  { tmdb_id := 42
    title := "B"
    year := none
    overview := ""
    poster_url := none
    tmdb_vote := some (15 / 2)
    imdb_rating := none
    score := 15 / 2 }

/-- A candidate carrying a low resolved IMDb rating. -/
def recLow : Rec :=
  { tmdb_id := 9
    title := "Low"
    year := none
    overview := ""
    poster_url := none
    tmdb_vote := some 5
    imdb_rating := some 5
    score := 5 }

/-- A raw record with no title at all. -/
def movieUntitled : Movie :=
  { id := some 3
    title := none
    release_date := none
    overview := none
    poster_path := none
    vote_average := some 6 }

/-- Concrete evaluation: `build_rec` on the Heat scenario record. -/
lemma build_heat : build_rec env0 heatMovie (5 / 4) = some heatRec := by
  simp +decide [build_rec, heatMovie, heatRec, env0, py_or_str, parse_year, py_isdigit,
    py_take4, digits_val, poster_url_of, imdb_rating_of, py_or_q, TMDB_IMG, Rec.mk.injEq]
  norm_num

/-- Concrete evaluation: `build_rec` on the three-digit release date. -/
lemma build_123 : build_rec env0 movie123 0 = some rec123 := by
  simp +decide [build_rec, movie123, rec123, env0, py_or_str, parse_year, py_isdigit,
    py_take4, digits_val, poster_url_of, imdb_rating_of, py_or_q, TMDB_IMG, Rec.mk.injEq]

/-- Concrete evaluation: the pipeline pool fed with the Heat record only. -/
lemma pool_heat : rec_pool_final env0 [heatMovie] [] 1 = some heatRec := by
  simp +decide [rec_pool_final, pool_insert_all, pool_insert, pool_empty, merge_slot,
    build_rec, heatMovie, heatRec, env0, py_or_str, parse_year, py_isdigit, py_take4,
    digits_val, poster_url_of, imdb_rating_of, py_or_q, TMDB_IMG, Rec.mk.injEq]
  norm_num

/-- Python `v or 0.0` on an optional rational is just `getD 0`. -/
lemma py_or_q_eq_getD (x : Option ℚ) : py_or_q x = x.getD 0 := by
  rcases x with _ | v
  · rfl
  · by_cases hv : v = 0 <;> simp [py_or_q, hv]

/-- Everything `build_rec` guarantees about a successfully built candidate,
field by field. -/
lemma build_rec_some_props (env : Env) (m : Movie) (lb : ℚ) (r : Rec)
    (h : build_rec env m lb = some r) :
    m.id = some r.tmdb_id ∧ r.tmdb_id ≠ 0 ∧ r.title ≠ "" ∧
      r.title = py_or_str m.title ∧
      r.year = parse_year (py_or_str m.release_date) ∧
      r.tmdb_vote = m.vote_average ∧
      r.imdb_rating = imdb_rating_of env r.tmdb_id ∧
      r.score = py_or_q m.vote_average + lb +
        (if r.imdb_rating.isSome then (1 / 4 : ℚ) else 0) := by
  rcases hid : m.id with _ | tid
  · rw [build_rec, hid] at h
    exact absurd h (by simp)
  · rw [build_rec, hid] at h
    dsimp only at h
    by_cases hc : tid = 0 ∨ py_or_str m.title = ""
    · rw [if_pos hc] at h
      exact absurd h (by simp)
    · rw [if_neg hc] at h
      push_neg at hc
      injection h with h
      subst h
      exact ⟨rfl, hc.1, hc.2, rfl, rfl, rfl, rfl, rfl⟩

/-- The slot-level merge is commutative as soon as the two candidates cannot
tie with different contents. -/
lemma merge_slot_comm (x y : Rec) (h : x.score = y.score → x = y) (o : Option Rec) :
    merge_slot (merge_slot o x) y = merge_slot (merge_slot o y) x := by
  rcases lt_trichotomy x.score y.score with h1 | h1 | h1
  · have hyx : ¬ y.score < x.score := not_lt.mpr h1.le
    rcases o with _ | o
    · simp [merge_slot, h1, hyx]
    · by_cases ho1 : o.score < x.score <;> by_cases ho2 : o.score < y.score <;>
        simp [merge_slot, ho1, ho2, h1, hyx] <;>
        exact absurd (ho1.trans h1) ho2
  · rw [h h1]
  · have hxy : ¬ x.score < y.score := not_lt.mpr h1.le
    rcases o with _ | o
    · simp [merge_slot, h1, hxy]
    · by_cases ho1 : o.score < x.score <;> by_cases ho2 : o.score < y.score <;>
        simp [merge_slot, ho1, ho2, h1, hxy] <;>
        exact absurd (ho2.trans h1) ho1

/-- Two pool insertions commute as soon as the two candidates cannot tie
with different contents. -/
lemma pool_insert_comm (x y : Rec)
    (h : x.tmdb_id = y.tmdb_id → x.score = y.score → x = y) (p : Pool) :
    pool_insert (pool_insert p x) y = pool_insert (pool_insert p y) x := by
  funext i
  by_cases hk : x.tmdb_id = y.tmdb_id
  · by_cases hi : i = y.tmdb_id
    · subst hi
      simp only [pool_insert, hk, if_pos rfl]
      exact merge_slot_comm x y (h hk) (p y.tmdb_id)
    · have hix : i ≠ x.tmdb_id := fun c => hi (c.trans hk)
      simp [pool_insert, hi, hix]
  · by_cases hiy : i = y.tmdb_id <;> by_cases hix : i = x.tmdb_id
    · exact absurd (hix.symm.trans hiy) hk
    · simp [pool_insert, hiy, hix, Ne.symm hk]
    · simp [pool_insert, hiy, hix, hk]
    · simp [pool_insert, hiy, hix]

/-- Any per-slot property that holds of the initial pool and of every
inserted candidate (at its own key) holds of the resulting pool. -/
lemma pool_insert_all_inv (Q : Int → Rec → Prop) :
    ∀ (l : List Rec) (p : Pool), (∀ i r, p i = some r → Q i r) →
      (∀ r ∈ l, Q r.tmdb_id r) →
      ∀ i r, pool_insert_all p l i = some r → Q i r := by
  intro l
  induction l with
  | nil => intro p hp _ i r h; exact hp i r h
  | cons x xs ih =>
    intro p hp hl i r h
    have hstep : ∀ j s, pool_insert p x j = some s → Q j s := by
      intro j s hs
      by_cases hj : j = x.tmdb_id
      · subst hj
        rw [pool_insert, if_pos rfl] at hs
        rcases hpx : p x.tmdb_id with _ | o <;> rw [hpx] at hs
        · rw [merge_slot] at hs
          injection hs with hs
          subst hs
          exact hl x (List.mem_cons_self x xs)
        · rw [merge_slot] at hs
          by_cases hc : o.score < x.score
        -- keep the new candidate or the old one
          · rw [if_pos hc] at hs
            injection hs with hs
            subst hs
            exact hl x (List.mem_cons_self x xs)
          · rw [if_neg hc] at hs
            injection hs with hs
            subst hs
            exact hp x.tmdb_id o hpx
      · rw [pool_insert, if_neg hj] at hs
        exact hp j s hs
    have h' : pool_insert_all (pool_insert p x) xs i = some r := by
      rw [pool_insert_all] at h ⊢
      simpa [List.foldl_cons] using h
    exact ih (pool_insert p x) hstep (fun s hs => hl s (List.mem_cons_of_mem x hs)) i r h'

/-!
Claim theorems.
-/

/-- C1, counterexample: the pool is NOT insertion-order independent in
general.  Two raw records with the same id, the same resulting score but
different titles give different final pools depending on the insertion
order, because the merge keeps the incumbent on score ties. -/
theorem pool_order_dependent_cex :
    ([movieAlpha, movieBeta]).Perm ([movieBeta, movieAlpha]) ∧
      pool_insert_all pool_empty
          ((([movieAlpha, movieBeta]).filterMap (fun m => build_rec env0 m 0))) 11 ≠
        pool_insert_all pool_empty
          ((([movieBeta, movieAlpha]).filterMap (fun m => build_rec env0 m 0))) 11 := by
  constructor
  · exact List.Perm.swap movieBeta movieAlpha []
  · simp [pool_insert_all, pool_insert, pool_empty, merge_slot, build_rec, movieAlpha,
      movieBeta, env0, py_or_str, parse_year, py_isdigit, py_take4, digits_val,
      poster_url_of, imdb_rating_of, py_or_q, Rec.mk.injEq, List.filterMap_cons,
      List.filterMap_nil]

/-- C1 (amended): inserting the same multiset of candidates into the empty
Merge/Dedup Pool in any order yields an identical final pool, provided no
two distinct candidates of the multiset share both their id and their
score (the strict keep-the-higher-score merge resolves such ties in favour
of the earlier insertion, which is the one order-dependent case). -/
theorem pool_order_independent (l₁ l₂ : List Rec) (hp : l₁.Perm l₂)
    (hd : ∀ a ∈ l₁, ∀ b ∈ l₁, a.tmdb_id = b.tmdb_id → a.score = b.score → a = b) :
    pool_insert_all pool_empty l₁ = pool_insert_all pool_empty l₂ := by
  rw [pool_insert_all, pool_insert_all]
  exact hp.foldl_eq'
    (fun x hx y hy z => pool_insert_comm x y (fun hk hs => hd x hx y hy hk hs) z)
    pool_empty

/-- C1, witness: two distinct-score candidates for the same id end in the
same pool whichever is inserted first. -/
theorem pool_order_independent_w :
    pool_insert_all pool_empty [rec42a, rec42b] =
      pool_insert_all pool_empty [rec42b, rec42a] :=
  pool_order_independent [rec42a, rec42b] [rec42b, rec42a]
    (List.Perm.swap rec42b rec42a [])
    (by
      intro a ha b hb hid hsc
      rcases List.mem_pair.mp ha with h1 | h1 <;> rcases List.mem_pair.mp hb with h2 | h2 <;>
          subst h1 <;> subst h2 <;> first
        | rfl
        | norm_num [rec42a, rec42b] at hsc)

/-- C2: the score of every built candidate is exactly the primary rating
(0 when absent) plus the like bonus plus 0.25 exactly when a secondary
rating was resolved; no other term contributes. -/
theorem build_rec_score_formula (env : Env) (m : Movie) (lb : ℚ) (r : Rec)
    (h : build_rec env m lb = some r) :
    r.score = m.vote_average.getD 0 + lb +
      (if r.imdb_rating.isSome then (1 / 4 : ℚ) else 0) := by
  have hp := build_rec_some_props env m lb r h
  rw [hp.2.2.2.2.2.2.2, py_or_q_eq_getD]

/-- C2, witness: the Heat scenario record scores `7.8 + 1.25 + 0 = 9.05`. -/
theorem build_rec_score_formula_w :
    heatRec.score = heatMovie.vote_average.getD 0 + 5 / 4 +
      (if heatRec.imdb_rating.isSome then (1 / 4 : ℚ) else 0) :=
  build_rec_score_formula env0 heatMovie (5 / 4) heatRec build_heat

/-- C3: inserting a candidate with a fresh id adds it (other slots kept);
inserting over a stored candidate replaces it exactly when the new score
strictly exceeds the stored one and otherwise leaves the pool unchanged;
concretely, two id-42 records with scores 6.0 and 7.5 leave only the
7.5-scored version in either insertion order. -/
theorem pool_insert_semantics :
    (∀ (p : Pool) (r : Rec), p r.tmdb_id = none →
        pool_insert p r r.tmdb_id = some r ∧
          ∀ i, i ≠ r.tmdb_id → pool_insert p r i = p i) ∧
      (∀ (p : Pool) (r old : Rec), p r.tmdb_id = some old → old.score < r.score →
        pool_insert p r r.tmdb_id = some r ∧
          ∀ i, i ≠ r.tmdb_id → pool_insert p r i = p i) ∧
      (∀ (p : Pool) (r old : Rec), p r.tmdb_id = some old → ¬ old.score < r.score →
        pool_insert p r = p) ∧
      pool_insert_all pool_empty [rec42a, rec42b] 42 = some rec42b ∧
      pool_insert_all pool_empty [rec42b, rec42a] 42 = some rec42b := by
  refine ⟨?_, ?_, ?_, ?_, ?_⟩
  · intro p r hp
    exact ⟨by simp [pool_insert, merge_slot, hp], fun i hi => by simp [pool_insert, hi]⟩
  · intro p r old hp hlt
    refine ⟨?_, fun i hi => by simp [pool_insert, hi]⟩
    simp [pool_insert, merge_slot, hp, hlt]
  · intro p r old hp hge
    funext i
    by_cases hi : i = r.tmdb_id
    · subst hi
      simp [pool_insert, merge_slot, hp, hge]
    · simp [pool_insert, hi]
  · norm_num [pool_insert_all, pool_insert, pool_empty, merge_slot, rec42a, rec42b]
  · norm_num [pool_insert_all, pool_insert, pool_empty, merge_slot, rec42a, rec42b]

/-- C3, witness: a fresh insertion stores the candidate, and an insertion
losing the score comparison leaves the pool unchanged. -/
theorem pool_insert_semantics_w :
    pool_insert pool_empty rec42a rec42a.tmdb_id = some rec42a ∧
      pool_insert (pool_insert pool_empty rec42b) rec42a = pool_insert pool_empty rec42b := by
  constructor
  · exact (pool_insert_semantics.1 pool_empty rec42a rfl).1
  · exact pool_insert_semantics.2.2.1 (pool_insert pool_empty rec42b) rec42a rec42b rfl
      (by norm_num [rec42a, rec42b])

/-- A raw record with a falsy identifier (missing or `0`) or a falsy title
(missing or empty) is rejected by `build_rec`. -/
lemma build_rec_falsy_none (env : Env) (m : Movie) (lb : ℚ)
    (hm : m.id = none ∨ m.id = some 0 ∨ py_or_str m.title = "") :
    build_rec env m lb = none := by
  rcases hid : m.id with _ | tid
  · rw [build_rec, hid]
  · rw [build_rec, hid]
    dsimp only
    rcases hm with hm | hm | hm
    · exact absurd (hid ▸ hm) (by simp)
    · rw [hid] at hm
      injection hm with hm
      rw [if_pos (Or.inl hm)]
    · rw [if_pos (Or.inr hm)]

/-- Every candidate surviving a `filterMap build_rec` stage has its raw id,
a non-zero id and a non-empty title. -/
lemma built_mem_props (env : Env) (l : List Movie) (lb : ℚ) (s : Rec)
    (hs : s ∈ l.filterMap (fun m => build_rec env m lb)) :
    s.tmdb_id ≠ 0 ∧ s.title ≠ "" := by
  obtain ⟨m, _, hm⟩ := List.mem_filterMap.mp hs
  have hp := build_rec_some_props env m lb s hm
  exact ⟨hp.2.1, hp.2.2.1⟩

/-- Structural invariant of every pipeline pool: a stored candidate sits at
the key equal to its id, and has a non-zero id and a non-empty title. -/
lemma rec_pool_final_inv (env : Env) (like_recs discover_recs : List Movie)
    (i : Int) (r : Rec)
    (h : rec_pool_final env like_recs discover_recs i = some r) :
    r.tmdb_id = i ∧ r.tmdb_id ≠ 0 ∧ r.title ≠ "" := by
  rw [rec_pool_final] at h
  refine pool_insert_all_inv
    (fun j s => s.tmdb_id = j ∧ s.tmdb_id ≠ 0 ∧ s.title ≠ "") _ _ ?_ ?_ i r h
  · intro j s hs
    refine pool_insert_all_inv
      (fun j s => s.tmdb_id = j ∧ s.tmdb_id ≠ 0 ∧ s.title ≠ "") _ _ ?_ ?_ j s hs
    · intro _ _ hempty
      exact absurd hempty (by simp [pool_empty])
    · exact fun s hs => ⟨rfl, built_mem_props env like_recs (5 / 4) s hs⟩
  · exact fun s hs => ⟨rfl, built_mem_props env discover_recs 0 s hs⟩

/-- C4: a raw record with a falsy identifier or a falsy title is rejected
by `build_rec`, and consequently every candidate stored in any pool the
pipeline reaches has a non-zero id and a non-empty title.  (Every reachable
pool state is `rec_pool_final` of some prefix of the two input lists, so
quantifying over all input lists covers all reachable states.) -/
theorem pool_no_missing_id_title :
    (∀ (env : Env) (m : Movie) (lb : ℚ),
        m.id = none ∨ m.id = some 0 ∨ py_or_str m.title = "" →
        build_rec env m lb = none) ∧
      (∀ (env : Env) (like_recs discover_recs : List Movie) (i : Int) (r : Rec),
        rec_pool_final env like_recs discover_recs i = some r →
        r.tmdb_id ≠ 0 ∧ r.title ≠ "") :=
  ⟨build_rec_falsy_none,
    fun env like_recs discover_recs i r h =>
      (rec_pool_final_inv env like_recs discover_recs i r h).2⟩

/-- C4, witness: a record with no title is rejected, and the candidate the
pipeline pool stores for the Heat record has a non-zero id and a non-empty
title. -/
theorem pool_no_missing_id_title_w :
    build_rec env0 movieUntitled 0 = none ∧
      heatRec.tmdb_id ≠ 0 ∧ heatRec.title ≠ "" :=
  ⟨pool_no_missing_id_title.1 env0 movieUntitled 0 (Or.inr (Or.inr rfl)),
    pool_no_missing_id_title.2 env0 [heatMovie] [] 1 heatRec pool_heat⟩

/-- C5, counterexample: a release date without any leading 4-digit numeric
prefix can still produce a present year.  The record with release date
`"123"` builds successfully and gets year `123`, where the claim requires
the year to be absent. -/
theorem build_rec_year_cex :
    movie123.release_date = some ("123") ∧
      (("123" : String)).length < 4 ∧
      build_rec env0 movie123 0 = some rec123 ∧
      rec123.year = some 123 := by
  refine ⟨rfl, by decide, build_123, rfl⟩

/-- C5 (amended): for every built candidate, the year is present exactly
when the first `min(4, length)` characters of the release-date string are a
non-empty run of digits, in which case the year is their decimal value (for
a well-formed date this is the leading 4-digit year); otherwise the year is
absent.  Building itself never fails on a malformed date (`build_rec` is a
total function and the year computation cannot reject the record). -/
theorem build_rec_year_amended (env : Env) (m : Movie) (lb : ℚ) (r : Rec)
    (h : build_rec env m lb = some r) :
    ((py_or_str m.release_date).data.take 4 ≠ [] ∧
        (∀ c ∈ (py_or_str m.release_date).data.take 4, c.isDigit = true) →
          r.year = some (digits_val ((py_or_str m.release_date).data.take 4))) ∧
      (¬ ((py_or_str m.release_date).data.take 4 ≠ [] ∧
          (∀ c ∈ (py_or_str m.release_date).data.take 4, c.isDigit = true)) →
          r.year = none) := by
  have hy : r.year = parse_year (py_or_str m.release_date) :=
    (build_rec_some_props env m lb r h).2.2.2.2.1
  have hiff : py_isdigit (py_take4 (py_or_str m.release_date)) = true ↔
      (py_or_str m.release_date).data.take 4 ≠ [] ∧
        (∀ c ∈ (py_or_str m.release_date).data.take 4, c.isDigit = true) := by
    rw [py_isdigit, py_take4]
    simp [List.isEmpty_iff]
  constructor
  · intro hc
    rw [hy, parse_year, if_pos (hiff.mpr hc), py_take4]
  · intro hc
    rw [hy, parse_year, if_neg (fun hb => hc (hiff.mp hb))]

/-- C5, witness: the Heat record's year is the decimal value of the four
leading digits of its release date. -/
theorem build_rec_year_amended_w :
    heatRec.year = some (digits_val ((py_or_str heatMovie.release_date).data.take 4)) :=
  (build_rec_year_amended env0 heatMovie (5 / 4) heatRec build_heat).1 (by decide)

/-- C6: the quality filter rejects on rating grounds exactly when the OMDb
credential is configured, the candidate has a resolved secondary rating,
and that rating is strictly below the threshold; with no credential, or
with no resolved rating, it never rejects. -/
theorem rating_filter_characterization (env : Env) (imdb_min : ℚ) (r : Rec) :
    (rating_reject env imdb_min r = true ↔
        env.omdb_api_key ≠ "" ∧ ∃ v, r.imdb_rating = some v ∧ v < imdb_min) ∧
      (env.omdb_api_key = "" → rating_reject env imdb_min r = false) ∧
      (r.imdb_rating = none → rating_reject env imdb_min r = false) := by
  rcases hir : r.imdb_rating with _ | v
  · refine ⟨by simp [rating_reject, hir], fun hk => by simp [rating_reject, hk], fun _ => ?_⟩
    simp [rating_reject, hir]
  · refine ⟨by simp [rating_reject, hir], fun hk => by simp [rating_reject, hk], fun hn => ?_⟩
    exact absurd hn (by simp)

/-- C6, witness: with a credential and a rating of 5 against a 6.5 minimum
the filter rejects; with no credential the same candidate is kept. -/
theorem rating_filter_characterization_w :
    rating_reject envK (13 / 2) recLow = true ∧
      rating_reject env0 (13 / 2) recLow = false :=
  ⟨(rating_filter_characterization envK (13 / 2) recLow).1.mpr
      ⟨by decide, 5, rfl, by norm_num⟩,
    (rating_filter_characterization env0 (13 / 2) recLow).2.1 rfl⟩

/-- C7: with an empty selected-service set the availability filter keeps
every candidate, in every environment (so no availability data is ever
consulted), for every movie id and region. -/
theorem availability_filter_empty_selection (env : Env) (movie_id : Int)
    (region : String) :
    movie_available_on_selected_services env movie_id region ∅ = true := by
  rw [movie_available_on_selected_services, if_pos rfl]

/-- C8: the ranker's output has length at most the requested count, its
scores are non-increasing, and it is a prefix of the retained candidates
sorted descending by score (which is a permutation of the retained list). -/
theorem rank_length_sorted (n : Nat) (l : List Rec) :
    (rank n l).length ≤ n ∧
      List.Sorted score_ge (rank n l) ∧
      rank n l <+: sort_recs l ∧
      List.Sorted score_ge (sort_recs l) ∧
      (sort_recs l).Perm l := by
  have hs : List.Sorted score_ge (sort_recs l) := List.sorted_insertionSort score_ge l
  refine ⟨?_, ?_, ?_, hs, List.perm_insertionSort score_ge l⟩
  · rw [rank]
    exact List.length_take_le n (sort_recs l)
  · rw [rank]
    exact List.Pairwise.sublist (List.take_sublist n (sort_recs l)) hs
  · rw [rank]
    exact List.take_prefix n (sort_recs l)

/-- C9: the rating parser yields absent for the `"N/A"` sentinel, for a
missing value, for whitespace, and for every unparseable string (it is a
total function, so it never raises), and a candidate with no resolved
rating is never rejected by the rating filter. -/
theorem safe_float_na_absent :
    safe_float (some ("N/A")) = none ∧
      safe_float none = none ∧
      safe_float (some ("   ")) = none ∧
      (∀ x : Option String, parse_py_float (py_strip (py_or_str x)) = none →
        safe_float x = none) ∧
      (∀ (env : Env) (imdb_min : ℚ) (r : Rec), r.imdb_rating = none →
        rating_reject env imdb_min r = false) := by
  refine ⟨by decide, by decide, by decide, ?_, ?_⟩
  · intro x hx
    simp only [safe_float]
    split_ifs with h
    · rfl
    · exact hx
  · intro env imdb_min r h
    simp [rating_reject, h]

/-- C9, witness: an unparseable string yields absent, and a candidate with
no resolved rating passes the filter even with a credential configured. -/
theorem safe_float_na_absent_w :
    safe_float (some ("abc")) = none ∧
      rating_reject envK (13 / 2) heatRec = false :=
  ⟨safe_float_na_absent.2.2.2.1 (some ("abc")) (by decide),
    safe_float_na_absent.2.2.2.2 envK (13 / 2) heatRec rfl⟩

/-- C10: the falsiness test of `build_rec` rejects the integer id `0` and
the empty (or missing) title just like missing fields, so slot 0 of every
pipeline pool is empty: a movie with provider id 0 can never enter the
pool. -/
theorem build_rec_falsy_id_zero :
    (∀ (env : Env) (m : Movie) (lb : ℚ), m.id = some 0 → build_rec env m lb = none) ∧
      (∀ (env : Env) (m : Movie) (lb : ℚ), m.title = none ∨ m.title = some "" →
        build_rec env m lb = none) ∧
      (∀ (env : Env) (like_recs discover_recs : List Movie),
        rec_pool_final env like_recs discover_recs 0 = none) := by
  refine ⟨?_, ?_, ?_⟩
  · intro env m lb h
    exact build_rec_falsy_none env m lb (Or.inr (Or.inl h))
  · intro env m lb h
    refine build_rec_falsy_none env m lb (Or.inr (Or.inr ?_))
    rcases h with h | h <;> rw [h, py_or_str]
    rw [if_pos rfl]
  · intro env like_recs discover_recs
    rcases hv : rec_pool_final env like_recs discover_recs 0 with _ | r
    · rfl
    · rcases rec_pool_final_inv env like_recs discover_recs 0 r hv with ⟨h1, h2, _⟩
      exact absurd h1 h2

/-- C10, witness: a record with id 0 is rejected, and the empty pipeline's
pool has nothing at slot 0. -/
theorem build_rec_falsy_id_zero_w :
    build_rec env0 movieZero 0 = none ∧ rec_pool_final env0 [] [] 0 = none :=
  ⟨build_rec_falsy_id_zero.1 env0 movieZero 0 rfl,
    build_rec_falsy_id_zero.2.2 env0 [] []⟩

end WatchPicker
